import Mathlib

/-!
Shallow embedding of the page-resolution logic of the `nextjs-learning`
repository: JSON values, the JSX output trees of each page component, the
`getStaticProps` / `getServerSideProps` resolvers, and the route
configurations (`getStaticPaths` known sets, `fallback` flags, `revalidate`
intervals).  The framework-owned runtime behaviours (incremental static
regeneration, on-demand fallback generation, request coalescing) are not
code of this repository; they are modelled from the specification where a
claim needs them, and those definitions say so in their doc comments.
-/

/-- A parsed JSON value, as produced by `response.json()` / axios.
Numbers are modelled as integers: every value in the repository's fixtures
and in the claims is integral. -/
inductive Json where
  | jnull : Json
  | jbool : Bool → Json
  | jnum : Int → Json
  | jstr : String → Json
  | jarr : List Json → Json
  | jobj : List (String × Json) → Json

/-- Property lookup `v.f` on an object; `none` models JavaScript `undefined`
(absent property, or property access on a non-object). -/
def Json.getField : Json → String → Option Json
  | .jobj fields, name => (fields.find? (fun p => p.1 == name)).map (·.2)
  | _, _ => none

/-- JavaScript truthiness of a defined value. -/
def Json.truthy : Json → Bool
  | .jnull => false
  | .jbool b => b
  | .jnum n => n != 0
  | .jstr s => s != ""
  | .jarr _ => true
  | .jobj _ => true

/-- Truthiness of a possibly-`undefined` value (`undefined` is falsy). -/
def jsTruthy : Option Json → Bool
  | none => false
  | some v => v.truthy

/-- The JavaScript expression `v.length`: the length of an array or of a
string, the `length` property of an object when it has one, and
`undefined` otherwise. -/
def Json.lengthVal : Json → Option Json
  | .jarr xs => some (.jnum xs.length)
  | .jstr s => some (.jnum s.length)
  | .jobj fields => Json.getField (.jobj fields) "length"
  | _ => none

/-- How React displays an interpolated child expression: numbers via
`toString`, strings as themselves, `null`/`undefined`/booleans as nothing.
The repository only ever interpolates scalar record fields inside JSX
output (objects appear only in `console.log` arguments), so the object and
array cases never feed a text node. -/
def jsDisplay : Json → String
  | .jnull => ""
  | .jbool _ => ""
  | .jnum n => toString n
  | .jstr s => s
  | .jarr _ => ""
  | .jobj _ => ""

/-- Display of a possibly-`undefined` interpolated value. -/
def jsDisplayOpt : Option Json → String
  | none => ""
  | some v => jsDisplay v

/-- A rendered output tree: a text node, or an element with a tag and
children.  JSX fragments are elements with tag `fragment`. -/
inductive Html where
  | text : String → Html
  | elem : String → List Html → Html

mutual

/-- All text appearing in an output tree, in document order. -/
def Html.texts : Html → List String
  | .text s => [s]
  | .elem _ children => Html.textsList children

/-- Text extraction over a list of sibling trees. -/
def Html.textsList : List Html → List String
  | [] => []
  | c :: cs => c.texts ++ Html.textsList cs

end

mutual

/-- The shape of an output tree: the tree with every text erased.  Two
pages are "identical in shape" when their shapes are equal. -/
def Html.shape : Html → Html
  | .text _ => .text ""
  | .elem tag children => .elem tag (Html.shapeList children)

/-- Shape erasure over a list of sibling trees. -/
def Html.shapeList : List Html → List Html
  | [] => []
  | c :: cs => c.shape :: Html.shapeList cs

end

/-- Failures of the fetch-and-parse step: the transport failure of
`fetch`/`axios.get`, or a malformed body rejected by `response.json()`.
Either one is a thrown exception that propagates out of the resolver. -/
inductive FetchError where
  | networkError : FetchError
  | parseError : FetchError
deriving DecidableEq

/-- What a `getStaticProps` / `getServerSideProps` resolver returns to the
framework: a props payload, or the not-found marker object. -/
inductive ResolverResult where
  | props : Json → ResolverResult
  | notFound : ResolverResult

example : Json.truthy (.jnum 0) = false := rfl
example : Json.lengthVal (.jobj []) = none := rfl
example : jsDisplay (.jnum 7) = "7" := rfl
example : (Html.elem "a" [.text "x", .elem "b" [.text "y"]]).texts = ["x", "y"] := rfl

/-! Renderers, one namespace per source module.  Each page component is a
function from its props to an output tree; components whose bodies call
`console.log` also get a `consoleCalls` function listing the values logged
during one render (all other bodies contain no console call). -/

namespace PostId

/-- The `Post` component of `src/pages/posts/[postId].tsx`: the fallback
branch renders the loading heading when `router.isFallback` is set, the
main branch renders the post's id, title and body. -/
def Post (isFallback : Bool) (post : Json) : Html :=
  if isFallback then .elem "h1" [.text "Loading..."]
  else .elem "fragment"
    [ .elem "h2" [.text (jsDisplayOpt (post.getField "id")), .text " ",
        .text (jsDisplayOpt (post.getField "title"))],
      .elem "p" [.text (jsDisplayOpt (post.getField "body"))] ]

/-- Console output of one render of `Post`: its body has no console call. -/
def Post_consoleCalls (_isFallback : Bool) (_post : Json) : List Json := []

end PostId

namespace NotFoundPage

/-- The `PageNotFound` component of `src/pages/404.tsx`. -/
def PageNotFound : Html :=
  .elem "h1" [.text "404 Page with all the custom stying necessary."]

end NotFoundPage

namespace Docs

/-- The `Doc` component of `src/pages/docs/[...params].tsx`: dispatches on
the number of captured path segments. -/
def Doc (params : List String) : Html :=
  if params.length == 2 then
    .elem "h1" [.text "Viewing docs for feature ", .text (params.getD 0 ""),
      .text " and concept ", .text (params.getD 1 "")]
  else if params.length == 1 then
    .elem "h1" [.text "Viewing docs for feature ", .text (params.getD 0 "")]
  else
    .elem "h1" [.text "Docs Home Page"]

/-- Console output of one render of `Doc`: its body has no console call. -/
def Doc_consoleCalls (_params : List String) : List Json := []

end Docs

namespace NewsIndex

/-- The body of `articles.map` in `NewsArticleList`
(`src/pages/news/index.tsx`). -/
def articleItem (article : Json) : Html :=
  .elem "div"
    [ .elem "h2" [.text (jsDisplayOpt (article.getField "id")), .text " ",
        .text (jsDisplayOpt (article.getField "title")), .text " | ",
        .text (jsDisplayOpt (article.getField "category"))] ]

/-- The `NewsArticleList` component of `src/pages/news/index.tsx`. -/
def NewsArticleList (articles : List Json) : Html :=
  .elem "fragment"
    (.elem "h2" [.text "List of News Articles"] :: articles.map articleItem)

/-- Console output of one render of `NewsArticleList`: no console call. -/
def NewsArticleList_consoleCalls (_articles : List Json) : List Json := []

end NewsIndex

namespace NewsCategory

/-- The body of `articles.map` in `ArticleListByCategory`
(`src/pages/news/[category].tsx`). -/
def articleItem (article : Json) : Html :=
  .elem "div"
    [ .elem "h2" [.text (jsDisplayOpt (article.getField "id")), .text " ",
        .text (jsDisplayOpt (article.getField "title"))],
      .elem "p" [.text (jsDisplayOpt (article.getField "description"))],
      .elem "hr" [] ]

/-- The `ArticleListByCategory` component of
`src/pages/news/[category].tsx`. -/
def ArticleListByCategory (category : String) (articles : List Json) : Html :=
  .elem "fragment"
    (.elem "h1" [.text "Showing news for category: ", .elem "i" [.text category]]
      :: articles.map articleItem)

/-- Console output of one render of `ArticleListByCategory`: no console
call. -/
def ArticleListByCategory_consoleCalls (_category : String)
    (_articles : List Json) : List Json := []

end NewsCategory

namespace Products

/-- The `ProductDetails` component of
`src/pages/products/[productId]/index.tsx`.  Its input is `router.query`,
an object of route parameters. -/
def ProductDetails (query : List (String × Json)) : Html :=
  .elem "h2" [.text "Details About Product ",
    .text (jsDisplayOpt (Json.getField (.jobj query) "productId"))]

/-- Console output of one render of `ProductDetails`: line 7 of the source
is `console.log(router.query)`, so each render logs the query object. -/
def ProductDetails_consoleCalls (query : List (String × Json)) : List Json :=
  [Json.jobj query]

/-- The `ReviewDetails` component of the same source module. -/
def ReviewDetails (query : List (String × Json)) : Html :=
  .elem "h2" [.text "Review ",
    .text (jsDisplayOpt (Json.getField (.jobj query) "reviewId")),
    .text " for Product ID ",
    .text (jsDisplayOpt (Json.getField (.jobj query) "productId"))]

end Products

namespace UserComponent

/-- The `User` component of `src/components/user.tsx`. -/
def User (user : Json) : Html :=
  .elem "fragment"
    [ .elem "p" [.text (jsDisplayOpt (user.getField "name"))],
      .elem "p" [.text (jsDisplayOpt (user.getField "email"))] ]

end UserComponent

namespace Users

/-- The final `UserList` component of `src/pages/users.tsx` (the second,
exported definition, which delegates each item to the `User` component). -/
def UserList (users : List Json) : Html :=
  .elem "fragment"
    (.elem "h1" [.text "List of users"]
      :: users.map (fun user => .elem "div" [UserComponent.User user]))

/-- Console output of one render of `UserList`: no console call. -/
def UserList_consoleCalls (_users : List Json) : List Json := []

end Users

namespace UsersUserId

/-- The `User` detail component of `src/pages/users/[userId].tsx`. -/
def User (user : Json) : Html :=
  .elem "div"
    [ .elem "p" [.text "ID: ", .text (jsDisplayOpt (user.getField "id"))],
      .elem "p" [.text "Name: ", .text (jsDisplayOpt (user.getField "name"))],
      .elem "p" [.text "Email: ", .text (jsDisplayOpt (user.getField "email"))] ]

/-- The body of `users.map` in `UsersList` (second half of
`src/pages/users/[userId].tsx`): a div containing a link showing
`id`, a literal dot-space, and `name`. -/
def userItem (user : Json) : Html :=
  .elem "div"
    [ .elem "Link" [.text (jsDisplayOpt (user.getField "id")), .text ". ",
        .text (jsDisplayOpt (user.getField "name"))] ]

/-- The `UsersList` component: it returns the mapped array directly (no
wrapping element). -/
def UsersList (users : List Json) : List Html :=
  users.map userItem

/-- Console output of one render of `UsersList`: no console call. -/
def UsersList_consoleCalls (_users : List Json) : List Json := []

end UsersUserId

namespace PostsIndex

/-- The body of `posts.map` in `PostList` (`src/pages/posts/index.tsx`). -/
def postItem (post : Json) : Html :=
  .elem "div"
    [ .elem "Link"
        [.elem "h2" [.text (jsDisplayOpt (post.getField "id")), .text " ",
          .text (jsDisplayOpt (post.getField "title"))]],
      .elem "hr" [] ]

/-- The `PostList` component of `src/pages/posts/index.tsx`. -/
def PostList (posts : List Json) : Html :=
  .elem "fragment" (.elem "h1" [.text "List of Posts:"] :: posts.map postItem)

/-- Console output of one render of `PostList`: no console call. -/
def PostList_consoleCalls (_posts : List Json) : List Json := []

end PostsIndex

/-! The zod schema of `src/pages/users.tsx` as a runtime checker, and the
resolvers (`getStaticProps` / `getServerSideProps`) of each route.  A
resolver is a function of the outcome of its fetch-and-parse step: a
thrown `FetchError` propagates out unchanged (the `await` re-raises it),
and a parsed body is mapped to the object the source returns. -/

/-- Checks that a possibly-absent value is a JSON number (`z.number()`). -/
def isNumberField : Option Json → Bool
  | some (.jnum _) => true
  | _ => false

/-- Checks that a possibly-absent value is a JSON string (`z.string()`). -/
def isStringField : Option Json → Bool
  | some (.jstr _) => true
  | _ => false

/-- Approximation of zod's `.email()` refinement (presence of an at sign);
no theorem below depends on its precision. -/
def emailLike (s : String) : Bool := s.contains '@'

/-- Approximation of zod's `.url()` refinement (non-empty string); no
theorem below depends on its precision. -/
def urlLike (s : String) : Bool := s != ""

/-- Checks a string field carrying the `.email()` refinement. -/
def isEmailField : Option Json → Bool
  | some (.jstr s) => emailLike s
  | _ => false

/-- Checks a string field carrying the `.url()` refinement. -/
def isUrlField : Option Json → Bool
  | some (.jstr s) => urlLike s
  | _ => false

namespace Users

/-- The `geo` sub-object of `UsersSchema`. -/
def geoCheck (g : Json) : Bool :=
  isStringField (g.getField "lat") && isStringField (g.getField "lng")

/-- The `address` sub-object of `UsersSchema`. -/
def addressCheck (a : Json) : Bool :=
  isStringField (a.getField "street") && isStringField (a.getField "suite") &&
  isStringField (a.getField "city") && isStringField (a.getField "zipcode") &&
  (match a.getField "geo" with
   | some g => geoCheck g
   | none => false)

/-- The `company` sub-object of `UsersSchema`. -/
def companyCheck (c : Json) : Bool :=
  isStringField (c.getField "name") && isStringField (c.getField "catchPhrase") &&
  isStringField (c.getField "bs")

/-- One element of `UsersSchema` (`z.object` over the declared user
fields). -/
def userCheck (u : Json) : Bool :=
  isNumberField (u.getField "id") && isStringField (u.getField "name") &&
  isStringField (u.getField "username") && isEmailField (u.getField "email") &&
  (match u.getField "address" with
   | some a => addressCheck a
   | none => false) &&
  isStringField (u.getField "phone") && isUrlField (u.getField "website") &&
  (match u.getField "company" with
   | some c => companyCheck c
   | none => false)

/-- The `UsersSchema` declaration of `src/pages/users.tsx`
(`z.object(...).array()`) as a runtime validator: accepts exactly the
arrays all of whose elements satisfy the declared user shape. -/
def UsersSchema (v : Json) : Bool :=
  match v with
  | .jarr xs => xs.all userCheck
  | _ => false

/-- The exported `getStaticProps` of `src/pages/users.tsx`: it returns the
parsed body as the `users` prop as-is.  No call to `UsersSchema.parse`
appears anywhere in the source; the schema is used only for the type-level
`z.infer`. -/
def getStaticProps (fetched : Except FetchError Json) :
    Except FetchError ResolverResult :=
  match fetched with
  | .error e => .error e
  | .ok data => .ok (.props (.jobj [("users", data)]))

end Users

namespace UsersUserId

/-- The `getStaticPaths` of `src/pages/users/[userId].tsx`: the known
`userId` values, and the `fallback` flag. -/
def getStaticPaths : List String × Bool := (["1", "2", "3"], false)

/-- The detail `getStaticProps` of `src/pages/users/[userId].tsx`: it
returns the parsed body as the `user` prop with no presence check of any
kind. -/
def getStaticProps (fetched : Except FetchError Json) :
    Except FetchError ResolverResult :=
  match fetched with
  | .error e => .error e
  | .ok data => .ok (.props (.jobj [("user", data)]))

/-- The second `getStaticProps` of the same file (the `UsersList` half):
`response.data.slice(0, 3)` keeps the first three users. -/
def usersListGetStaticProps (data : List Json) : ResolverResult :=
  .props (.jobj [("users", .jarr (data.take 3))])

end UsersUserId

namespace PostId

/-- The `getStaticPaths` of `src/pages/posts/[postId].tsx`: posts 1 to 3
are pre-generated, and `fallback` is `true`. -/
def getStaticPaths : List String × Bool := (["1", "2", "3"], true)

/-- The `getStaticProps` of `src/pages/posts/[postId].tsx`: `!data.id`
short-circuits to the not-found marker, otherwise the body is the `post`
prop (with `revalidate: 10`, recorded in the route configuration). -/
def getStaticProps (fetched : Except FetchError Json) :
    Except FetchError ResolverResult :=
  match fetched with
  | .error e => .error e
  | .ok data =>
    if jsTruthy (data.getField "id") then .ok (.props (.jobj [("post", data)]))
    else .ok .notFound

end PostId

namespace PostsIndex

/-- The `getStaticProps` of `src/pages/posts/index.tsx`: the whole parsed
body becomes the `posts` prop. -/
def getStaticProps (fetched : Except FetchError Json) :
    Except FetchError ResolverResult :=
  match fetched with
  | .error e => .error e
  | .ok data => .ok (.props (.jobj [("posts", data)]))

end PostsIndex

namespace NewsIndex

/-- The `getServerSideProps` of `src/pages/news/index.tsx`: the whole
parsed body becomes the `articles` prop. -/
def getServerSideProps (fetched : Except FetchError Json) :
    Except FetchError ResolverResult :=
  match fetched with
  | .error e => .error e
  | .ok data => .ok (.props (.jobj [("articles", data)]))

end NewsIndex

namespace NewsCategory

/-- The `getServerSideProps` of `src/pages/news/[category].tsx`:
`!data.length` short-circuits to the not-found marker (JavaScript `length`
semantics: array length, string length, `length` property of an object,
`undefined` otherwise), else the body and the category become props. -/
def getServerSideProps (category : String)
    (fetched : Except FetchError Json) : Except FetchError ResolverResult :=
  match fetched with
  | .error e => .error e
  | .ok data =>
    if jsTruthy data.lengthVal then
      .ok (.props (.jobj [("articles", data), ("category", .jstr category)]))
    else .ok .notFound

end NewsCategory

/-! Route configurations and resolution modes.  A route's configuration is
exactly what the source module exports: which resolver functions exist,
the known parameter set and `fallback` flag of `getStaticPaths`, and the
`revalidate` interval of `getStaticProps`. -/

/-- The data-fetching configuration a route module exports. -/
structure RouteConfig where
  hasGetServerSideProps : Bool
  hasGetStaticProps : Bool
  staticPaths : Option (List String)
  fallback : Option Bool
  revalidate : Option Nat
deriving DecidableEq

/-- Configuration of `/users` (`src/pages/users.tsx`). -/
def usersRoute : RouteConfig :=
  ⟨false, true, none, none, none⟩

/-- Configuration of `/users/[userId]` (`src/pages/users/[userId].tsx`). -/
def usersUserIdRoute : RouteConfig :=
  ⟨false, true, some UsersUserId.getStaticPaths.1,
    some UsersUserId.getStaticPaths.2, none⟩

/-- Configuration of `/posts` (`src/pages/posts/index.tsx`). -/
def postsIndexRoute : RouteConfig :=
  ⟨false, true, none, none, none⟩

/-- Configuration of `/posts/[postId]` (`src/pages/posts/[postId].tsx`):
known set 1 to 3 with `fallback: true`, and `revalidate: 10`. -/
def postIdRoute : RouteConfig :=
  ⟨false, true, some PostId.getStaticPaths.1, some PostId.getStaticPaths.2,
    some 10⟩

/-- Configuration of `/news` (`src/pages/news/index.tsx`). -/
def newsIndexRoute : RouteConfig :=
  ⟨true, false, none, none, none⟩

/-- Configuration of `/news/[category]`
(`src/pages/news/[category].tsx`). -/
def newsCategoryRoute : RouteConfig :=
  ⟨true, false, none, none, none⟩

/-- The specification's `ResolutionMode` enumeration (§3). -/
inductive ResolutionMode where
  | eager : ResolutionMode
  | eagerKnownSetOnDemandFallback : ResolutionMode
  | timeBoxedRefresh : Nat → ResolutionMode
  | perRequest : ResolutionMode
deriving DecidableEq

/-- Modelled from the spec: the mode-selection mapping of §3/§4.3, which
the framework (not this repository) implements.  A configuration selects
`Eager` when it pre-renders with `getStaticProps`, no fallback beyond the
known set and no refresh interval; it selects the on-demand-fallback mode
when its `fallback` flag is `true`; it selects `TimeBoxedRefresh i` when
it declares `revalidate: i`; and it selects `PerRequest` when it exports
`getServerSideProps`. -/
def RouteConfig.selects (c : RouteConfig) : ResolutionMode → Bool
  | .eager =>
    c.hasGetStaticProps && c.revalidate.isNone && !(c.fallback.getD false) &&
      !c.hasGetServerSideProps
  | .eagerKnownSetOnDemandFallback => c.fallback.getD false
  | .timeBoxedRefresh i => c.revalidate == some i
  | .perRequest => c.hasGetServerSideProps

/-! Framework runtime models.  None of the following is code of this
repository: the repository only configures the framework's incremental
regeneration, fallback generation and request coalescing.  Each model is
built from the specification's description and says so. -/

/-- A filled cache slot of the time-boxed-refresh runtime: the cached
output and the time it was (re)computed. -/
structure ISRState where
  cached : Html
  stamp : Nat

/-- Modelled from the spec: the `TimeBoxedRefresh(interval)` request step
of §4.3, which Next.js implements, not this repository.  A request within
`interval` seconds of the slot's stamp serves the cached output
unconditionally.  A later request still serves the cached (now stale)
output and triggers recomputation in the background: when the
recomputation succeeds (`recomputed = some h`) the cache is replaced for
following requests, and when it fails (`recomputed = none`) the stale slot
is kept. -/
def isrRequest (interval : Nat) (recomputed : Option Html) (s : ISRState)
    (t : Nat) : Html × ISRState :=
  if t ≤ s.stamp + interval then (s.cached, s)
  else
    match recomputed with
    | some h => (s.cached, ⟨h, t⟩)
    | none => (s.cached, s)

/-- A per-parameter slot of the on-demand-fallback runtime: either nothing
has been generated for the parameter yet, or an output is persisted. -/
inductive FallbackSlot where
  | empty : FallbackSlot
  | ready : Html → FallbackSlot

/-- Modelled from the spec: the on-demand-fallback request step of §4.3,
which Next.js implements, not this repository.  The first request for a
parameter outside the known set serves the Placeholder (the component's
`isFallback` branch, which IS repository code) while the pipeline computes
`generated` in the background and persists it; later requests serve the
persisted output. -/
def onDemandRequest (generated : Html) : FallbackSlot → Html × FallbackSlot
  | .empty => (PostId.Post true (.jobj []), .ready generated)
  | .ready h => (h, .ready h)

/-- Global state of the coalescing cache slot of one (route, parameter)
pair: the persisted output, the in-flight computation's waiting callers
(at most one computation, holding the list of callers that joined it), the
number of Fetch Adapter calls started so far, and the outputs delivered to
callers so far. -/
structure CoalesceState where
  cache : Option Html
  inflight : Option (List Nat)
  fetchCalls : Nat
  delivered : List (Nat × Html)

/-- An event at the slot: a request by a caller, or completion of the
in-flight computation with its output. -/
inductive CoalesceEvent where
  | request : Nat → CoalesceEvent
  | complete : Html → CoalesceEvent

/-- Modelled from the spec: the mutex-guarded in-flight marker of §5/§9,
which the framework implements, not this repository.  A request is served
from the cache when it is filled; otherwise it joins the in-flight
computation when one exists, and only when there is none does it start
one (counting one Fetch Adapter call).  Completion delivers the single
computed output to every joined caller and fills the cache. -/
def coalesceStep (s : CoalesceState) : CoalesceEvent → CoalesceState
  | .request c =>
    match s.cache with
    | some h => { s with delivered := s.delivered ++ [(c, h)] }
    | none =>
      match s.inflight with
      | some cs => { s with inflight := some (cs ++ [c]) }
      | none => { s with inflight := some [c], fetchCalls := s.fetchCalls + 1 }
  | .complete h =>
    match s.inflight with
    | some cs =>
      { cache := some h, inflight := none, fetchCalls := s.fetchCalls,
        delivered := s.delivered ++ cs.map (fun c => (c, h)) }
    | none => s

/-- Running a sequence of events at the slot. -/
def coalesceRun (events : List CoalesceEvent) (s : CoalesceState) :
    CoalesceState :=
  events.foldl coalesceStep s

/-- The slot before any request: empty cache, nothing in flight. -/
def coalesceInit : CoalesceState := ⟨none, none, 0, []⟩

/-- A post record in the shape the posts API returns. -/
def samplePost (n : Int) : Json :=
  .jobj [("userId", .jnum 1), ("id", .jnum n),
         ("title", .jstr ("Post title " ++ toString n)),
         ("body", .jstr ("Post body " ++ toString n))]

/-- The output the `/posts/4` pipeline computes once its background
generation finishes: the `Post` component on the fetched record. -/
def generatedPost4 : Html := PostId.Post false (samplePost 4)

/-- The Placeholder output: the `Post` component's `isFallback` branch,
rendered before the post props exist. -/
def postPlaceholder : Html := PostId.Post true (.jobj [])

/-- The users list page end to end: the resolver's `users` prop fed to the
`UsersList` component, exactly as the framework wires them. -/
def UsersUserId.usersListPage (backend : List Json) : List Html :=
  match usersListGetStaticProps backend with
  | .props p =>
    match p.getField "users" with
    | some (.jarr users) => UsersList users
    | _ => []
  | .notFound => []

/-- The text row a single rendered users-list item shows. -/
def UsersUserId.userItemTexts (u : Json) : List String :=
  [jsDisplayOpt (u.getField "id"), ". ", jsDisplayOpt (u.getField "name")]

/-- The text row a single rendered news article shows. -/
def NewsIndex.articleItemTexts (a : Json) : List String :=
  [jsDisplayOpt (a.getField "id"), " ", jsDisplayOpt (a.getField "title"),
   " | ", jsDisplayOpt (a.getField "category")]

theorem textsList_map_userItem (us : List Json) :
    Html.textsList (us.map UsersUserId.userItem) =
      (us.map UsersUserId.userItemTexts).flatten := by
  induction us with
  | nil => rfl
  | cons u rest ih =>
    simp only [List.map_cons, Html.textsList, ih, List.flatten_cons]
    rfl

theorem textsList_map_articleItem (as : List Json) :
    Html.textsList (as.map NewsIndex.articleItem) =
      (as.map NewsIndex.articleItemTexts).flatten := by
  induction as with
  | nil => rfl
  | cons a rest ih =>
    simp only [List.map_cons, Html.textsList, ih, List.flatten_cons]
    rfl

/-- C9: the docs catch-all page dispatches on the number of captured path
segments: exactly two segments render the feature-and-concept heading
naming both segments, exactly one renders the feature heading naming it,
and every other count renders the docs home heading. -/
theorem C9_docs_catchall_dispatch (ps : List String) :
    (ps.length = 2 →
      Docs.Doc ps = .elem "h1" [.text "Viewing docs for feature ",
        .text (ps.getD 0 ""), .text " and concept ", .text (ps.getD 1 "")]) ∧
    (ps.length = 1 →
      Docs.Doc ps = .elem "h1" [.text "Viewing docs for feature ",
        .text (ps.getD 0 "")]) ∧
    (ps.length ≠ 2 → ps.length ≠ 1 →
      Docs.Doc ps = .elem "h1" [.text "Docs Home Page"]) := by
  refine ⟨fun h2 => ?_, fun h1 => ?_, fun h2 h1 => ?_⟩
  · simp [Docs.Doc, h2]
  · simp [Docs.Doc, h1]
  · simp [Docs.Doc, h2, h1]

/-- Witness for C9 at segment lists of length 2, 1, 0 and 3. -/
theorem C9_docs_catchall_dispatch_witness :
    Docs.Doc ["routing", "catch-all"] =
      .elem "h1" [.text "Viewing docs for feature ", .text "routing",
        .text " and concept ", .text "catch-all"] ∧
    Docs.Doc ["routing"] =
      .elem "h1" [.text "Viewing docs for feature ", .text "routing"] ∧
    Docs.Doc [] = .elem "h1" [.text "Docs Home Page"] ∧
    Docs.Doc ["a", "b", "c"] = .elem "h1" [.text "Docs Home Page"] :=
  ⟨(C9_docs_catchall_dispatch _).1 rfl, (C9_docs_catchall_dispatch _).2.1 rfl,
   (C9_docs_catchall_dispatch []).2.2 (by decide) (by decide),
   (C9_docs_catchall_dispatch ["a", "b", "c"]).2.2 (by decide) (by decide)⟩

/-- C10: the users list page renders exactly the first `min(3, length)`
records of the backend response, in source order, regardless of how many
users the backend returns: the page shows one item per kept record and the
displayed rows are the rows of the first three source records. -/
theorem C10_users_list_first_three (backend : List Json) :
    (UsersUserId.usersListPage backend).length = min 3 backend.length ∧
    Html.textsList (UsersUserId.usersListPage backend) =
      ((backend.map UsersUserId.userItemTexts).take 3).flatten := by
  have hpage : UsersUserId.usersListPage backend =
      UsersUserId.UsersList (backend.take 3) := rfl
  constructor
  · simp [hpage, UsersUserId.UsersList]
  · rw [hpage, UsersUserId.UsersList, textsList_map_userItem, List.map_take]

/-- C1: the claim that the users page validates the fetched body against
`UsersSchema` before rendering is false: `getStaticProps` forwards the
body unvalidated, so the concrete body `[ \x7b \x7d ]` (an array holding one
empty object), which the declared schema rejects, is handed to the
renderer as the `users` prop instead of failing with a validation error. -/
theorem C1_counterexample :
    Users.UsersSchema (.jarr [.jobj []]) = false ∧
    Users.getStaticProps (.ok (.jarr [.jobj []])) =
      .ok (.props (.jobj [("users", .jarr [.jobj []])])) :=
  ⟨rfl, rfl⟩

/-- C1 amended: the users route's `getStaticProps` performs no runtime
validation at all: every successfully fetched and parsed body, matching
the declared shape or not, is passed unchanged to the renderer as the
`users` prop, and only fetch or parse failures abort the pipeline.  The
declared `UsersSchema` (which does reject ill-shaped bodies, such as an
array holding an empty object) is used only as a type-level declaration. -/
theorem C1_no_runtime_validation :
    (∀ d, Users.getStaticProps (.ok d) = .ok (.props (.jobj [("users", d)]))) ∧
    (∀ e, Users.getStaticProps (.error e) = .error e) ∧
    Users.UsersSchema (.jarr [.jobj []]) = false :=
  ⟨fun _ => rfl, fun _ => rfl, rfl⟩

/-- C2: the claim that every pipeline maps an empty or absent body to the
NotFound outcome is false for the `/users/[userId]` resolver: on the empty
body it returns a props payload wrapping the empty record (a page of empty
fields), not the not-found marker. -/
theorem C2_counterexample :
    UsersUserId.getStaticProps (.ok (.jobj [])) =
      .ok (.props (.jobj [("user", .jobj [])])) ∧
    UsersUserId.getStaticProps (.ok (.jobj [])) ≠ .ok .notFound := by
  refine ⟨rfl, fun h => ?_⟩
  simp [UsersUserId.getStaticProps] at h

/-- C2 amended: the NotFound mapping holds exactly for the pipelines that
implement a presence check: `/posts/[postId]` yields the not-found marker
whenever the body's `id` field is absent or falsy, and `/news/[category]`
whenever the body's `length` is absent or zero; the `/users/[userId]`
resolver has no presence check and never yields the not-found marker, so
an empty body reaches its renderer. -/
theorem C2_notfound_mapping :
    (∀ d, jsTruthy (d.getField "id") = false →
      PostId.getStaticProps (.ok d) = .ok .notFound) ∧
    (∀ c d, jsTruthy d.lengthVal = false →
      NewsCategory.getServerSideProps c (.ok d) = .ok .notFound) ∧
    (∀ r, UsersUserId.getStaticProps r ≠ .ok .notFound) := by
  refine ⟨fun d h => ?_, fun c d h => ?_, fun r => ?_⟩
  · simp [PostId.getStaticProps, h]
  · simp [NewsCategory.getServerSideProps, h]
  · cases r <;> simp [UsersUserId.getStaticProps]

/-- Witness for C2 amended: the post body with no `id`, the empty article
list, and the empty user body. -/
theorem C2_notfound_mapping_witness :
    PostId.getStaticProps (.ok (.jobj [])) = .ok .notFound ∧
    NewsCategory.getServerSideProps "entertainment" (.ok (.jarr [])) =
      .ok .notFound ∧
    UsersUserId.getStaticProps (.ok (.jobj [])) ≠ .ok .notFound :=
  ⟨C2_notfound_mapping.1 (.jobj []) rfl,
   C2_notfound_mapping.2.1 "entertainment" (.jarr []) rfl,
   C2_notfound_mapping.2.2 (.ok (.jobj []))⟩

/-- C3: the claim that no route's configuration selects more than one
resolution mode is false at `/posts/[postId]`: its exported configuration
(`fallback: true` together with `revalidate: 10`) selects both the
on-demand-fallback mode and the ten-second time-boxed-refresh mode, which
are distinct modes. -/
theorem C3_counterexample :
    postIdRoute.selects .eagerKnownSetOnDemandFallback = true ∧
    postIdRoute.selects (.timeBoxedRefresh 10) = true ∧
    ResolutionMode.eagerKnownSetOnDemandFallback ≠
      ResolutionMode.timeBoxedRefresh 10 :=
  ⟨rfl, rfl, by decide⟩

/-- C3 amended: every data-fetching route selects at least one resolution
mode, and every such route except `/posts/[postId]` selects exactly one
(`Eager` for the two users routes and the posts index, `PerRequest` for
the two news routes); `/posts/[postId]` alone selects exactly two modes
simultaneously, the on-demand fallback and the ten-second time-boxed
refresh. -/
theorem C3_mode_selection :
    (∀ m, usersRoute.selects m = true ↔ m = .eager) ∧
    (∀ m, usersUserIdRoute.selects m = true ↔ m = .eager) ∧
    (∀ m, postsIndexRoute.selects m = true ↔ m = .eager) ∧
    (∀ m, newsIndexRoute.selects m = true ↔ m = .perRequest) ∧
    (∀ m, newsCategoryRoute.selects m = true ↔ m = .perRequest) ∧
    (∀ m, postIdRoute.selects m = true ↔
      (m = .eagerKnownSetOnDemandFallback ∨ m = .timeBoxedRefresh 10)) := by
  refine ⟨fun m => ?_, fun m => ?_, fun m => ?_, fun m => ?_, fun m => ?_,
    fun m => ?_⟩ <;>
    cases m <;>
    simp [RouteConfig.selects, usersRoute, usersUserIdRoute, postsIndexRoute,
      newsIndexRoute, newsCategoryRoute, postIdRoute,
      UsersUserId.getStaticPaths, PostId.getStaticPaths] <;>
    omega

/-- Witness for C3 amended at concrete modes. -/
theorem C3_mode_selection_witness :
    usersRoute.selects .eager = true ∧
    newsIndexRoute.selects .perRequest = true ∧
    postIdRoute.selects (.timeBoxedRefresh 10) = true :=
  ⟨(C3_mode_selection.1 .eager).mpr rfl,
   (C3_mode_selection.2.2.2.1 .perRequest).mpr rfl,
   (C3_mode_selection.2.2.2.2.2 (.timeBoxedRefresh 10)).mpr (Or.inr rfl)⟩

/-- C4: behaviour of the ten-second time-boxed-refresh slot configured by
`/posts/[postId]` (`revalidate: 10`), on the step model of the framework
runtime built from the spec.  With the slot computed at `t = 0` holding
`v0`: requests at `t = 0` and `t = 5` return the identical output `v0`
and leave the slot unchanged; the first request after the interval
(`t = 11`) still returns the stale `v0` while the background
recomputation replaces the slot with `v1`; after that every following
request is served the new output `v1`; and when the recomputation fails
the request still returns `v0` and the slot is kept, so the stale output
continues to be served. -/
theorem C4_time_boxed_refresh (v0 v1 : Html) :
    postIdRoute.revalidate = some 10 ∧
    (isrRequest 10 (some v1) ⟨v0, 0⟩ 0).1 = v0 ∧
    (isrRequest 10 (some v1) ⟨v0, 0⟩ 5).1 = (isrRequest 10 (some v1) ⟨v0, 0⟩ 0).1 ∧
    (isrRequest 10 (some v1) ⟨v0, 0⟩ 5).2 = ⟨v0, 0⟩ ∧
    (isrRequest 10 (some v1) ⟨v0, 0⟩ 11).1 = v0 ∧
    (isrRequest 10 (some v1) ⟨v0, 0⟩ 11).2 = ⟨v1, 11⟩ ∧
    (∀ r t, (isrRequest 10 r ⟨v1, 11⟩ t).1 = v1) ∧
    (isrRequest 10 none ⟨v0, 0⟩ 11).1 = v0 ∧
    (isrRequest 10 none ⟨v0, 0⟩ 11).2 = ⟨v0, 0⟩ := by
  refine ⟨rfl, rfl, rfl, rfl, rfl, rfl, fun r t => ?_, rfl, rfl⟩
  rcases r with _ | h <;> simp [isrRequest] <;> split <;> rfl

/-- C5: requesting `/posts/4` when only posts 1 to 3 are pre-generated
(per `getStaticPaths`) and fallback is on-demand: the very first request
serves the Placeholder (the `Post` component's `isFallback` branch); the
Placeholder differs from the 404 page and from the final rendered post
page; the second request serves the generated page; and that page has the
same shape as a pre-generated post page. -/
theorem C5_on_demand_fallback :
    ("4" ∉ PostId.getStaticPaths.1) ∧
    (onDemandRequest generatedPost4 .empty).1 = postPlaceholder ∧
    postPlaceholder ≠ NotFoundPage.PageNotFound ∧
    (∀ p, postPlaceholder ≠ PostId.Post false p) ∧
    (onDemandRequest generatedPost4
      ((onDemandRequest generatedPost4 .empty).2)).1 = generatedPost4 ∧
    Html.shape generatedPost4 = Html.shape (PostId.Post false (samplePost 1)) := by
  refine ⟨by decide, rfl, ?_, fun p => ?_, rfl, rfl⟩
  · intro h
    simp [postPlaceholder, PostId.Post, NotFoundPage.PageNotFound] at h
  · intro h
    simp [postPlaceholder, PostId.Post] at h

/-- Witness for C5 at the concrete record fetched for post 4. -/
theorem C5_on_demand_fallback_witness :
    postPlaceholder ≠ PostId.Post false (samplePost 4) :=
  C5_on_demand_fallback.2.2.2.1 (samplePost 4)

/-- C6: the not-found marker is produced only by the resolvers' own
presence checks on a successfully fetched body: whenever `/posts/[postId]`
or `/news/[category]` yields it, the fetch succeeded and the body failed
the respective presence check; and a network or parse failure propagates
out of every resolver as the thrown error (a generic failure outcome,
which is a different constructor from any not-found result), never as the
not-found marker. -/
theorem C6_notfound_taxonomy :
    (∀ r, PostId.getStaticProps r = .ok .notFound →
      ∃ d, r = .ok d ∧ jsTruthy (d.getField "id") = false) ∧
    (∀ c r, NewsCategory.getServerSideProps c r = .ok .notFound →
      ∃ d, r = .ok d ∧ jsTruthy d.lengthVal = false) ∧
    (∀ e, PostId.getStaticProps (.error e) = .error e) ∧
    (∀ c e, NewsCategory.getServerSideProps c (.error e) = .error e) ∧
    (∀ e, Users.getStaticProps (.error e) = .error e) ∧
    (∀ e, UsersUserId.getStaticProps (.error e) = .error e) ∧
    (∀ e, PostsIndex.getStaticProps (.error e) = .error e) ∧
    (∀ e, NewsIndex.getServerSideProps (.error e) = .error e) ∧
    (∀ e, (Except.error e : Except FetchError ResolverResult) ≠ .ok .notFound) ∧
    (∀ r, NewsIndex.getServerSideProps r ≠ .ok .notFound) ∧
    (∀ r, PostsIndex.getStaticProps r ≠ .ok .notFound) := by
  refine ⟨fun r h => ?_, fun c r h => ?_, fun e => rfl, fun c e => rfl,
    fun e => rfl, fun e => rfl, fun e => rfl, fun e => rfl, fun e => by simp,
    fun r => ?_, fun r => ?_⟩
  · rcases r with e | d
    · simp [PostId.getStaticProps] at h
    · refine ⟨d, rfl, ?_⟩
      cases hjs : jsTruthy (d.getField "id") with
      | true => simp [PostId.getStaticProps, hjs] at h
      | false => rfl
  · rcases r with e | d
    · simp [NewsCategory.getServerSideProps] at h
    · refine ⟨d, rfl, ?_⟩
      cases hjs : jsTruthy d.lengthVal with
      | true => simp [NewsCategory.getServerSideProps, hjs] at h
      | false => rfl
  · cases r <;> simp [NewsIndex.getServerSideProps]
  · cases r <;> simp [PostsIndex.getStaticProps]

/-- Witness for C6: the post body with no `id`, and a network failure on
the news category route propagating as the thrown error. -/
theorem C6_notfound_taxonomy_witness :
    (∃ d, (Except.ok (Json.jobj []) : Except FetchError Json) = .ok d ∧
      jsTruthy (d.getField "id") = false) ∧
    NewsCategory.getServerSideProps "sports" (.error .networkError) =
      .error .networkError :=
  ⟨C6_notfound_taxonomy.1 (.ok (.jobj [])) rfl,
   C6_notfound_taxonomy.2.2.2.1 "sports" .networkError⟩

/-- C7: the claim that every renderer performs no side effect is false at
the `ProductDetails` component: its body calls `console.log(router.query)`
(line 7 of `src/pages/products/[productId]/index.tsx`), so rendering it on
the concrete query for product 1 produces console output. -/
theorem C7_counterexample :
    Products.ProductDetails_consoleCalls [("productId", .jstr "1")] ≠ [] := by
  simp [Products.ProductDetails_consoleCalls]

/-- C7 amended: every renderer is a deterministic function of its props
and, for list inputs, shows the rows of the source records in source
order; every renderer except `ProductDetails` performs no console side
effect, while `ProductDetails` logs the router query object on every
render. -/
theorem C7_renderer_purity :
    (∀ f p, PostId.Post_consoleCalls f p = []) ∧
    (∀ ps, Docs.Doc_consoleCalls ps = []) ∧
    (∀ as, NewsIndex.NewsArticleList_consoleCalls as = []) ∧
    (∀ c as, NewsCategory.ArticleListByCategory_consoleCalls c as = []) ∧
    (∀ us, Users.UserList_consoleCalls us = []) ∧
    (∀ us, UsersUserId.UsersList_consoleCalls us = []) ∧
    (∀ ps, PostsIndex.PostList_consoleCalls ps = []) ∧
    (∀ q, Products.ProductDetails_consoleCalls q = [.jobj q]) ∧
    (∀ as, Html.texts (NewsIndex.NewsArticleList as) =
      "List of News Articles" :: (as.map NewsIndex.articleItemTexts).flatten) ∧
    (∀ us, Html.textsList (UsersUserId.UsersList us) =
      (us.map UsersUserId.userItemTexts).flatten) := by
  refine ⟨fun f p => rfl, fun ps => rfl, fun as => rfl, fun c as => rfl,
    fun us => rfl, fun us => rfl, fun ps => rfl, fun q => rfl,
    fun as => ?_, fun us => ?_⟩
  · rw [show Html.texts (NewsIndex.NewsArticleList as) =
      ["List of News Articles"] ++ Html.textsList (as.map NewsIndex.articleItem)
      from rfl, textsList_map_articleItem]
    rfl
  · exact textsList_map_userItem us

theorem coalesceRun_requests_inflight (cs : List Nat) (acc : List Nat)
    (f : Nat) (d : List (Nat × Html)) :
    coalesceRun (cs.map .request) ⟨none, some acc, f, d⟩ =
      ⟨none, some (acc ++ cs), f, d⟩ := by
  induction cs generalizing acc with
  | nil => simp [coalesceRun]
  | cons c rest ih =>
    show coalesceRun (rest.map .request)
      (coalesceStep ⟨none, some acc, f, d⟩ (.request c)) = _
    rw [show coalesceStep ⟨none, some acc, f, d⟩ (.request c) =
      ⟨none, some (acc ++ [c]), f, d⟩ from rfl, ih]
    simp

theorem coalesceRun_requests_cached (cs : List Nat) (v : Html)
    (infl : Option (List Nat)) (f : Nat) (d : List (Nat × Html)) :
    coalesceRun (cs.map .request) ⟨some v, infl, f, d⟩ =
      ⟨some v, infl, f, d ++ cs.map (fun c => (c, v))⟩ := by
  induction cs generalizing d with
  | nil => simp [coalesceRun]
  | cons c rest ih =>
    show coalesceRun (rest.map .request)
      (coalesceStep ⟨some v, infl, f, d⟩ (.request c)) = _
    rw [show coalesceStep ⟨some v, infl, f, d⟩ (.request c) =
      ⟨some v, infl, f, d ++ [(c, v)]⟩ from rfl, ih]
    simp

/-- C8: on the coalescing slot model built from the spec, any nonempty
batch of concurrent requests for the same uncached parameter starts
exactly one pipeline execution (one Fetch Adapter call) with every
requester joined to it; when that single computation completes, every
requester is delivered the same output; and any number of later requests
is served from the filled cache with no further Fetch Adapter call. -/
theorem C8_request_coalescing (callers : List Nat) (h : Html)
    (hne : callers ≠ []) :
    (coalesceRun (callers.map .request) coalesceInit).inflight = some callers ∧
    (coalesceRun (callers.map .request) coalesceInit).fetchCalls = 1 ∧
    (coalesceRun (callers.map .request ++ [.complete h]) coalesceInit).delivered =
      callers.map (fun c => (c, h)) ∧
    (coalesceRun (callers.map .request ++ [.complete h]) coalesceInit).fetchCalls = 1 ∧
    (∀ later : List Nat,
      (coalesceRun (later.map .request)
        (coalesceRun (callers.map .request ++ [.complete h]) coalesceInit)).fetchCalls = 1 ∧
      (coalesceRun (later.map .request)
        (coalesceRun (callers.map .request ++ [.complete h]) coalesceInit)).delivered =
        callers.map (fun c => (c, h)) ++ later.map (fun c => (c, h))) := by
  rcases callers with _ | ⟨c0, rest⟩
  · exact absurd rfl hne
  · have hreq : coalesceRun ((c0 :: rest).map .request) coalesceInit =
        ⟨none, some (c0 :: rest), 1, []⟩ := by
      show coalesceRun (rest.map .request)
        (coalesceStep coalesceInit (.request c0)) = _
      rw [show coalesceStep coalesceInit (.request c0) =
        ⟨none, some [c0], 1, []⟩ from rfl, coalesceRun_requests_inflight]
      simp
    have hfull : coalesceRun ((c0 :: rest).map .request ++ [.complete h])
        coalesceInit =
        ⟨some h, none, 1, (c0 :: rest).map (fun c => (c, h))⟩ := by
      have hsplit : coalesceRun ((c0 :: rest).map .request ++ [.complete h])
          coalesceInit =
          coalesceStep (coalesceRun ((c0 :: rest).map .request) coalesceInit)
            (.complete h) := by
        simp [coalesceRun, List.foldl_append]
      rw [hsplit, hreq]
      rfl
    refine ⟨by rw [hreq], by rw [hreq], by rw [hfull], by rw [hfull],
      fun later => ⟨?_, ?_⟩⟩
    · rw [hfull, coalesceRun_requests_cached]
    · rw [hfull, coalesceRun_requests_cached]

/-- Witness for C8: two concurrent callers, one computed output. -/
theorem C8_request_coalescing_witness :
    (coalesceRun ([1, 2].map .request) coalesceInit).inflight = some [1, 2] ∧
    (coalesceRun ([1, 2].map .request ++ [.complete (.text "page")])
      coalesceInit).delivered = [(1, .text "page"), (2, .text "page")] ∧
    (coalesceRun ([1, 2].map .request ++ [.complete (.text "page")])
      coalesceInit).fetchCalls = 1 :=
  ⟨(C8_request_coalescing [1, 2] (.text "page") (by decide)).1,
   (C8_request_coalescing [1, 2] (.text "page") (by decide)).2.2.1,
   (C8_request_coalescing [1, 2] (.text "page") (by decide)).2.2.2.1⟩
